import Mathlib

/-!
Verification development for the conference-bot Directory Reconciliation &
Identity Correlation Engine: a shallow embedding of `Conference` (catalog
rebuild, invite-redemption handling, permission reconciliation) and
`InviteCommand.ensureInvited` (membership reconciliation), with theorems
settling the specification's claims about them.
-/

namespace ConfBot

abbrev RoomId := String
abbrev UserId := String
abbrev PersonId := String

/-- Association-list lookup, mirroring JavaScript object property access
(`obj[k]`, `undefined` modelled as `none`). -/
def alLookup (k : String) : List (String × α) → Option α
  | [] => none
  | (k', v) :: rest => if k' = k then some v else alLookup k rest

/-- Association-list insert, mirroring JavaScript object property assignment:
an existing key keeps its position and is overwritten; a new key is appended.
This preserves `Object.values` enumeration order. -/
def alInsert (k : String) (v : α) : List (String × α) → List (String × α)
  | [] => [(k, v)]
  | (k', v') :: rest => if k' = k then (k, v) :: rest else (k', v') :: alInsert k v rest

@[simp]
theorem alLookup_nil (k : String) : alLookup k ([] : List (String × α)) = none := rfl

@[simp]
theorem alLookup_insert_self (k : String) (v : α) (l : List (String × α)) :
    alLookup k (alInsert k v l) = some v := by
  induction l with
  | nil => simp [alInsert, alLookup]
  | cons hd tl ih =>
    by_cases h : hd.1 = k
    · simp [alInsert, alLookup, h]
    · simpa [alInsert, alLookup, h] using ih

theorem alLookup_insert_ne (k k' : String) (v : α) (l : List (String × α)) (h : k' ≠ k) :
    alLookup k (alInsert k' v l) = alLookup k l := by
  induction l with
  | nil => simp [alInsert, alLookup, h]
  | cons hd tl ih =>
    by_cases hh : hd.1 = k'
    · simp [alInsert, alLookup, hh, h]
    · by_cases hk : hd.1 = k
      · simp [alInsert, alLookup, hh, hk, Ne.symm h]
      · simpa [alInsert, alLookup, hh, hk] using ih

/-- The creation-record kind tag (`RSC_ROOM_KIND_FLAG` values from
`models/room_kinds`). -/
inductive RoomKind
  | conference
  | auditorium
  | auditorium_backstage
  | talk
  | special_interest
deriving DecidableEq

/-- The immutable `m.room.create` content fields the engine reads: sender and
the `RSC_CONFERENCE_ID` / `RSC_ROOM_KIND_FLAG` / per-kind logical-ID tags.
Absent tags are `none` (JavaScript `undefined`). -/
structure CreateEvent where
  sender : UserId
  conferenceId : Option String
  kind : Option RoomKind
  auditoriumId : Option String
  talkId : Option String
  interestId : Option String
deriving DecidableEq

/-- Stored person record content (`IStoredPerson`): keyed by `pentaId`
(the person ID) and carrying the correlated platform identity `userId`. -/
structure StoredPerson where
  pentaId : PersonId
  userId : Option UserId
deriving DecidableEq

/-- Backend database person record (`IDbPerson`) fields used by the engine. -/
structure DbPerson where
  person_id : PersonId
  matrix_id : Option UserId
deriving DecidableEq

/-- Typed state events of the root/DB room read during hydration. -/
inductive DbContent
  | person (p : StoredPerson)
  | subspace (roomId : RoomId)
  | other
deriving DecidableEq

structure DbStateEvent where
  type : String
  state_key : String
  content : Option DbContent
deriving DecidableEq

def RS_STORED_PERSON : String := "org.matrix.confbot.person"
def RS_STORED_SUBSPACE : String := "org.matrix.confbot.subspace"

/-- The in-memory Directory Catalog: the mutable maps of `Conference`
(`dbRoom`, `auditoriums`, `auditoriumBackstages`, `talks`, `interestRooms`,
`subspaces`, `people`). Maps are association lists with JavaScript object
semantics. Entity handles are represented by their physical room ID. -/
structure Catalog where
  dbRoom : Option RoomId := none
  auditoriums : List (String × RoomId) := []
  auditoriumBackstages : List (String × RoomId) := []
  talks : List (String × RoomId) := []
  interestRooms : List (String × RoomId) := []
  subspaces : List (String × RoomId) := []
  people : List (String × StoredPerson) := []
deriving DecidableEq

def emptyCatalog : Catalog := {}

/-- The substrate environment `construct` reads from: joined-room enumeration,
per-room creation records, configured pre-existing interest rooms, alias
resolution, root-room state, and space resolution. A failing substrate call is
`none` (the corresponding promise rejects). -/
structure BuildEnv where
  joinedRooms : Option (List RoomId)
  createEvent : RoomId → Option CreateEvent
  existingInterestRooms : List (String × String)
  resolveRoom : String → Option RoomId
  rootRoomState : RoomId → Option (List DbStateEvent)
  getSpace : RoomId → Option RoomId

/-- Per-room classification step of `construct`: if the creation record's
conference-ID tag matches, switch on the kind tag and insert into the matching
map under the kind-specific logical ID (JavaScript coerces a missing ID key to
the string "undefined"); otherwise leave the catalog unchanged. -/
def classify (cid : String) (ev : CreateEvent) (roomId : RoomId) (c : Catalog) : Catalog :=
  if ev.conferenceId = some cid then
    match ev.kind with
    | some .conference => { c with dbRoom := some roomId }
    | some .auditorium =>
        { c with auditoriums := alInsert (ev.auditoriumId.getD "undefined") roomId c.auditoriums }
    | some .auditorium_backstage =>
        { c with auditoriumBackstages :=
            alInsert (ev.auditoriumId.getD "undefined") roomId c.auditoriumBackstages }
    | some .talk =>
        { c with talks := alInsert (ev.talkId.getD "undefined") roomId c.talks }
    | some .special_interest =>
        { c with interestRooms := alInsert (ev.interestId.getD "undefined") roomId c.interestRooms }
    | none => c
  else c

/-- One batch of `construct`'s discovery loop (`Promise.all` over up to 20
rooms): every room whose creation record reads successfully is classified
(its side effect lands even if a sibling read fails), and the second component
records whether any read in the batch failed (which rejects the `Promise.all`). -/
def processBatch (cid : String) (env : BuildEnv) (batch : List RoomId) (c : Catalog) :
    Catalog × Bool :=
  match batch with
  | [] => (c, false)
  | r :: rest =>
    match env.createEvent r with
    | none => ((processBatch cid env rest c).1, true)
    | some ev => processBatch cid env rest (classify cid ev r c)

/-- The batched discovery loop (`for i += 20 ... await Promise.all`): processes
batches of 20 sequentially; a failed batch throws out of `construct`, so later
batches are not processed. The fuel is the room count, which bounds the number
of non-empty batches. The second component records whether the loop aborted. -/
def processBatchesAux (cid : String) (env : BuildEnv) :
    Nat → List RoomId → Catalog → Catalog × Bool
  | _, [], c => (c, false)
  | 0, _ :: _, c => (c, false)
  | fuel + 1, r :: rs, c =>
    let res := processBatch cid env ((r :: rs).take 20) c
    if res.2 then (res.1, true)
    else processBatchesAux cid env fuel ((r :: rs).drop 20) res.1

def processBatches (cid : String) (env : BuildEnv) (rooms : List RoomId) (c : Catalog) :
    Catalog × Bool :=
  processBatchesAux cid env rooms.length rooms c

/-- Resolution of pre-configured "existing" interest rooms: already-discovered
IDs are kept; an alias that fails to resolve is swallowed (`catch continue`). -/
def resolveExistingInterest (env : BuildEnv) (c : Catalog) : Catalog :=
  env.existingInterestRooms.foldl
    (fun c kv =>
      if (alLookup kv.1 c.interestRooms).isSome then c
      else
        match env.resolveRoom kv.2 with
        | none => c
        | some roomId => { c with interestRooms := alInsert kv.1 roomId c.interestRooms })
    c

/-- Hydration of the person cache from the root room's typed state records:
events of the stored-person type, keyed by `pentaId`. -/
def hydratePeople (dbState : List DbStateEvent) (c : Catalog) : Catalog :=
  dbState.foldl
    (fun c s =>
      if s.type = RS_STORED_PERSON then
        match s.content with
        | some (.person p) => { c with people := alInsert p.pentaId p c.people }
        | _ => c
      else c)
    c

/-- Hydration of the subspace index: `getSpace` on each stored subspace's room;
a failing `getSpace` throws out of `construct` (second component `false`). -/
def hydrateSubspaces (env : BuildEnv) (events : List DbStateEvent) (c : Catalog) :
    Catalog × Bool :=
  events.foldl
    (fun acc s =>
      if acc.2 = false then acc
      else
        match s.content with
        | some (.subspace rid) =>
          match env.getSpace rid with
          | none => (acc.1, false)
          | some sp => ({ acc.1 with subspaces := alInsert s.state_key sp acc.1.subspaces }, true)
        | _ => acc)
    (c, true)

/-- `Conference.construct`: resets the catalog, enumerates joined rooms,
classifies them in batches of 20, resolves pre-existing interest rooms,
returns early if no root/DB room was found, and otherwise hydrates the person
cache and subspace index from the root room's state. Returns the caller-visible
catalog contents and whether the rebuild completed without throwing (the
result on `false` is the partially repopulated state the thrown-out-of object
retains). -/
def construct (cid : String) (env : BuildEnv) (_prior : Catalog) : Catalog × Bool :=
  let c := emptyCatalog
  match env.joinedRooms with
  | none => (c, false)
  | some rooms =>
    let res := processBatches cid env rooms c
    if res.2 then (res.1, false)
    else
      let c := resolveExistingInterest env res.1
      match c.dbRoom with
      | none => (c, true)
      | some rootId =>
        match env.rootRoomState rootId with
        | none => (c, false)
        | some state =>
          let dbState := state.filter (fun s => s.content.isSome)
          let c := hydratePeople dbState c
          hydrateSubspaces env (dbState.filter (fun s => s.type = RS_STORED_SUBSPACE)) c

/-- The `third_party_invite` object of an incoming `m.room.member` event's
content: `signed?.token` is the redemption token when present. -/
structure ThirdPartyInviteRef where
  signedToken : Option String
deriving DecidableEq

structure MemberContent where
  thirdPartyInvite : Option ThirdPartyInviteRef
deriving DecidableEq

/-- An incoming room event as seen by the `room.event` handler: its type, its
state key (the platform identity the membership change concerns), and its
content when present. -/
structure MemberEvent where
  type : String
  stateKey : UserId
  content : Option MemberContent
deriving DecidableEq

/-- Content of an `m.room.third_party_invite` state record: the
`RS_3PID_PERSON_ID` payload when present and truthy. -/
structure TpiContent where
  personId : Option PersonId
deriving DecidableEq

/-- A state event as returned by the full-room-state read in the handler:
type, state key and sender (the only fields the trust chain inspects). -/
structure RoomStateEvent where
  type : String
  state_key : String
  sender : UserId
deriving DecidableEq

/-- The substrate and backend environment of the `room.event` handler. A
failing call is `none`. `findPeopleWithId` is the backend lookup. -/
structure HandlerEnv where
  botUserId : UserId
  getTpiStateEvent : RoomId → String → Option TpiContent
  getRoomState : RoomId → Option (List RoomStateEvent)
  findPeopleWithId : PersonId → List DbPerson

/-- Reference to the entity a room was resolved to for the permission update. -/
inductive EntityRef
  | auditorium (id : String)
  | auditoriumBackstage (id : String)
  | talk (id : String)
deriving DecidableEq

/-- Reverse entity lookup performed after a successful correlation:
`storedAuditoriums.find`, then `storedAuditoriumBackstages.find`, then
`storedTalks.find`, each matching on the physical room ID; `Object.values`
order is the association-list order. -/
def resolveEntityForRoom (cat : Catalog) (roomId : RoomId) : Option EntityRef :=
  match cat.auditoriums.find? (fun kv => kv.2 == roomId) with
  | some kv => some (.auditorium kv.1)
  | none =>
    match cat.auditoriumBackstages.find? (fun kv => kv.2 == roomId) with
    | some kv => some (.auditoriumBackstage kv.1)
    | none =>
      match cat.talks.find? (fun kv => kv.2 == roomId) with
      | some kv => some (.talk kv.1)
      | none => none

/-- Modelled from the spec: `makeStoredPerson` (from `models/room_state`, which
is not part of the excerpt) produces the stored person record persisted to the
root room, keyed by the person ID and carrying the correlated platform
identity. -/
def makeStoredPerson (p : DbPerson) : StoredPerson :=
  { pentaId := p.person_id, userId := p.matrix_id }

/-- The `Applied` branch's per-person loop: each backend record is cloned, its
`matrix_id` is set to the member event's state key, and
`createUpdatePerson` stores the resulting record in the people cache under its
person ID (and persists it to the root room's state). -/
def stampPeople (sk : UserId) (ps : List DbPerson) (cache : List (String × StoredPerson)) :
    List (String × StoredPerson) :=
  ps.foldl
    (fun cache p =>
      let stored := makeStoredPerson { p with matrix_id := some sk }
      alInsert stored.pentaId stored cache)
    cache

/-- Terminal outcome of one invocation of the `room.event` handler.
`Applied` carries the backend records that were stamped and the entity whose
moderators were reconciled (`none` when the room matched no entity, in which
case no permission update happens). -/
inductive Outcome
  | Applied (people : List DbPerson) (permUpdate : Option EntityRef)
  | Rejected
deriving DecidableEq

def Outcome.isApplied : Outcome → Bool
  | .Applied _ _ => true
  | .Rejected => false

/-- The `room.event` handler installed by the `Conference` constructor
(the Invite Redemption Verifier): checks event type and third-party-invite
presence, fetches the referenced invite record by token, requires a person-ID
payload, re-reads full room state, requires both the `m.room.create` event and
the token's `m.room.third_party_invite` record to have been sent by the
agent's own identity, requires a non-empty backend lookup, and only then
stamps `matrix_id` on every matching record and resolves the entity for the
permission update. Any failing step leaves the catalog unchanged
(`Rejected`). -/
def handleRoomEvent (env : HandlerEnv) (cat : Catalog) (roomId : RoomId) (ev : MemberEvent) :
    Outcome × Catalog :=
  if ev.type = "m.room.member" then
    match ev.content with
    | none => (.Rejected, cat)
    | some content =>
      match content.thirdPartyInvite with
      | none => (.Rejected, cat)
      | some tpi =>
        match tpi.signedToken with
        | none => (.Rejected, cat)
        | some token =>
          match env.getTpiStateEvent roomId token with
          | none => (.Rejected, cat)
          | some invite =>
            match invite.personId with
            | none => (.Rejected, cat)
            | some pid =>
              match env.getRoomState roomId with
              | none => (.Rejected, cat)
              | some state =>
                if (state.find? (fun e => e.type == "m.room.create")).map (·.sender)
                    == some env.botUserId then
                  if (state.find? (fun e =>
                        e.type == "m.room.third_party_invite" && e.state_key == token)).map
                      (·.sender) == some env.botUserId then
                    match env.findPeopleWithId pid with
                    | [] => (.Rejected, cat)
                    | p :: ps =>
                      (.Applied (p :: ps) (resolveEntityForRoom cat roomId),
                        { cat with people := stampPeople ev.stateKey (p :: ps) cat.people })
                  else (.Rejected, cat)
                else (.Rejected, cat)
  else (.Rejected, cat)

/-- The specification's redemption conditions, following the spec's words: the
event carries a third-party-invite token; the referenced third-party-invite
state record exists and carries a person-ID payload; the room's creation event
was sent by the agent's own identity; the third-party-invite state record
matching the token was sent by the agent's own identity; and the backend
lookup by that person ID returns a non-empty result. Stated for comparison
with the source-derived `handleRoomEvent`. -/
def specRedemptionOk (env : HandlerEnv) (roomId : RoomId) (ev : MemberEvent) : Bool :=
  match (ev.content.bind (·.thirdPartyInvite)).bind (·.signedToken) with
  | none => false
  | some token =>
    match env.getTpiStateEvent roomId token with
    | none => false
    | some invite =>
      match invite.personId with
      | none => false
      | some pid =>
        match env.getRoomState roomId with
        | none => false
        | some state =>
          ((state.find? (fun e => e.type == "m.room.create")).map (·.sender)
              == some env.botUserId)
          && ((state.find? (fun e =>
                e.type == "m.room.third_party_invite" && e.state_key == token)).map
              (·.sender) == some env.botUserId)
          && !(env.findPeopleWithId pid).isEmpty

/-- A resolved invite target (`ResolvedPersonIdentifier`): a person record
paired with zero-or-one platform identity. -/
structure ResolvedPersonIdentifier where
  mxid : Option UserId
  person : DbPerson
deriving DecidableEq

/-- A room's power-level record as far as the Permission Reconciler touches
it: the `users` map from platform identity to privilege tier. -/
structure PowerLevels where
  users : List (String × Int)
deriving DecidableEq

/-- JavaScript truthiness of a stored tier value: absent (`undefined`) and `0`
are falsy, every other number is truthy. -/
def truthyLevel : Option Int → Bool
  | none => false
  | some v => v != 0

/-- One step of the target loop in `ensurePermissionsFor`:
`if (pls.users[userId]) continue; pls.users[userId] = 50`. -/
def grantStep (us : List (String × Int)) (m : String) : List (String × Int) :=
  if truthyLevel (alLookup m us) then us else alInsert m 50 us

/-- `Conference.ensurePermissionsFor`: reads the power-level map, pins the
agent's own identity and the configured moderator identity to 100, grants 50
to each target platform identity whose current entry is falsy, and returns the
merged map (written back as a single state update). -/
def ensurePermissionsFor (botUserId moderatorUserId : UserId)
    (people : List ResolvedPersonIdentifier) (pls : PowerLevels) : PowerLevels :=
  let mxids := (people.filter (fun t => t.mxid.isSome)).filterMap (·.mxid)
  let users := alInsert botUserId (100 : Int) pls.users
  let users := alInsert moderatorUserId 100 users
  { users := mxids.foldl grantStep users }

/-- Membership information computed by the substrate for an `m.room.member`
state event. Modelled from the spec: the effective-membership computation
itself lives in the substrate library (`MembershipEvent`), which is an
external collaborator; events carry their computed effective membership and
the identity it concerns (`membershipFor`). -/
structure MembershipInfo where
  effectiveMembership : String
  membershipFor : UserId
deriving DecidableEq

/-- A room state event as inspected by `ensureInvited`: its type, the
`RS_3PID_PERSON_ID` payload of its content when it is a third-party-invite
record (absent or falsy payloads are `none`), and its membership information
when it is a member event. -/
structure InvStateEvent where
  type : String
  tpiPersonId : Option PersonId
  membership : Option MembershipInfo
deriving DecidableEq

/-- The pending third-party-invite person IDs of a room: the
`RS_3PID_PERSON_ID` payloads of its `m.room.third_party_invite` records,
truthy ones only. -/
def emailInvitePersonIds (st : List InvStateEvent) : List PersonId :=
  (st.filter (fun s => s.type == "m.room.third_party_invite")).filterMap (·.tpiPersonId)

/-- The identities with effective join membership: member events whose
substrate-computed effective membership is "join". -/
def effectiveJoinedUserIds (st : List InvStateEvent) : List UserId :=
  (st.filter (fun s => s.type == "m.room.member")).filterMap
    (fun s => s.membership.bind
      (fun m => if m.effectiveMembership == "join" then some m.membershipFor else none))

/-- The skip logic of `ensureInvited`'s loop, as a per-target guard over the
two computed sets: a target passes unless its platform identity is effectively
joined or a pending third-party invite carries its person ID. -/
def skipGuard (joined : List UserId) (tpis : List PersonId)
    (t : ResolvedPersonIdentifier) : Bool :=
  !(match t.mxid with
    | some m => joined.contains m
    | none => false)
  && !(tpis.contains t.person.person_id)

/-- The per-target invite guard of `ensureInvited` against a room state. -/
def shouldInvite (st : List InvStateEvent) (t : ResolvedPersonIdentifier) : Bool :=
  skipGuard (effectiveJoinedUserIds st) (emailInvitePersonIds st) t

/-- The target loop of `InviteCommand.ensureInvited`: each non-skipped target
is attempted; `invitePersonToRoom` failures are logged and skipped
(`inviteOk` is the oracle for whether a given attempt succeeds), and
processing continues with the remaining targets. Returns the successfully
invited targets and the targets whose invite failed. -/
def ensureInvitedLoop (joined : List UserId) (tpis : List PersonId)
    (inviteOk : ResolvedPersonIdentifier → Bool) :
    List ResolvedPersonIdentifier →
      List ResolvedPersonIdentifier × List ResolvedPersonIdentifier
  | [] => ([], [])
  | t :: rest =>
    if (match t.mxid with | some m => joined.contains m | none => false) then
      ensureInvitedLoop joined tpis inviteOk rest
    else if tpis.contains t.person.person_id then
      ensureInvitedLoop joined tpis inviteOk rest
    else
      let res := ensureInvitedLoop joined tpis inviteOk rest
      if inviteOk t then (t :: res.1, res.2) else (res.1, t :: res.2)

/-- `InviteCommand.ensureInvited`: reads room state, computes the pending
third-party-invite person IDs and the effectively joined identities, and runs
the target loop. -/
def ensureInvited (st : List InvStateEvent) (people : List ResolvedPersonIdentifier)
    (inviteOk : ResolvedPersonIdentifier → Bool) :
    List ResolvedPersonIdentifier × List ResolvedPersonIdentifier :=
  ensureInvitedLoop (effectiveJoinedUserIds st) (emailInvitePersonIds st) inviteOk people

/-- Modelled from the spec: `invitePersonToRoom` (from `src/invites.ts`, not
part of the excerpt) issues a platform invite when the target has a platform
identity, and otherwise a third-party invite record carrying the person ID.
Either way it only adds an event to the room; it never removes one. -/
def inviteEvent (t : ResolvedPersonIdentifier) : InvStateEvent :=
  match t.mxid with
  | some m =>
    { type := "m.room.member", tpiPersonId := none,
      membership := some { effectiveMembership := "invite", membershipFor := m } }
  | none =>
    { type := "m.room.third_party_invite", tpiPersonId := some t.person.person_id,
      membership := none }

/-- The room state after `ensureInvited` ran: the prior state plus one invite
event per successful invite. -/
def applyEnsureInvited (st : List InvStateEvent) (people : List ResolvedPersonIdentifier)
    (inviteOk : ResolvedPersonIdentifier → Bool) : List InvStateEvent :=
  st ++ (ensureInvited st people inviteOk).1.map inviteEvent

/-! ## Claim C3: atomicity of `construct` -/

/-- Fixture for C3: a prior catalog holding one auditorium. -/
def c3Prior : Catalog := { emptyCatalog with auditoriums := [("A1", "!a:example.org")] }

/-- Fixture for C3: an environment whose joined-room enumeration fails. -/
def c3Env : BuildEnv :=
  { joinedRooms := none
    createEvent := fun _ => none
    existingInterestRooms := []
    resolveRoom := fun _ => none
    rootRoomState := fun _ => none
    getSpace := fun _ => none }

/-- C3 counterexample: with a non-empty prior catalog and a rebuild that fails
at room enumeration (before completion), the caller-visible catalog is NOT the
retained prior contents — `construct` resets first, so the prior auditorium is
gone. This refutes the claim that a failed rebuild retains the previous
catalog contents. -/
theorem c3_counterexample :
    (construct "X" c3Env c3Prior).2 = false ∧
    (construct "X" c3Env c3Prior).1 ≠ c3Prior ∧
    alLookup "A1" c3Prior.auditoriums = some "!a:example.org" ∧
    alLookup "A1" (construct "X" c3Env c3Prior).1.auditoriums = none := by
  decide

/-- C3 (amended): `construct` synchronously resets the catalog before any
I/O, so its caller-visible result never depends on the prior catalog
contents; when the rebuild fails at room enumeration the caller observes the
empty (reset) catalog, not the prior one. Only a completed rebuild produces
the repopulated catalog. -/
theorem c3_reset_semantics (cid : String) (env : BuildEnv) (p q : Catalog) :
    construct cid env p = construct cid env q ∧
    (env.joinedRooms = none → construct cid env p = (emptyCatalog, false)) := by
  refine ⟨rfl, fun h => ?_⟩
  simp [construct, h]

/-- C3 witness: the amended theorem applied at the concrete fixture. -/
theorem c3_reset_semantics_witness :
    construct "X" c3Env c3Prior = construct "X" c3Env emptyCatalog ∧
    construct "X" c3Env c3Prior = (emptyCatalog, false) :=
  ⟨(c3_reset_semantics "X" c3Env c3Prior emptyCatalog).1,
    (c3_reset_semantics "X" c3Env c3Prior emptyCatalog).2 rfl⟩

/-! ## Claim C9: idempotence of `construct` -/

/-- C9: rebuild is idempotent — against a fixed environment (unchanged joined
rooms, creation records and root-room state), running `construct` a second
time starting from the catalog the first run produced yields exactly the same
catalog and completion status as the first run. -/
theorem c9_construct_idempotent (cid : String) (env : BuildEnv) (c0 : Catalog) :
    construct cid env (construct cid env c0).1 = construct cid env c0 := rfl

/-! ## Claim C7: classifier correctness -/

/-- C7: the per-room classification step of the rebuild is correct. A creation
record whose conference-ID tag differs from this conference changes no bucket;
a matching record with kind tag X and logical ID Y is inserted into exactly
the bucket for X under key Y (`{c with ...}` leaves every other bucket
unchanged); and a single-room batch reduces to exactly this classification
step. -/
theorem c7_classifier (cid : String) (ev : CreateEvent) (roomId : RoomId) (c : Catalog)
    (env : BuildEnv) :
    (ev.conferenceId ≠ some cid → classify cid ev roomId c = c) ∧
    (ev.conferenceId = some cid →
      (∀ y, ev.kind = some .auditorium → ev.auditoriumId = some y →
        classify cid ev roomId c = { c with auditoriums := alInsert y roomId c.auditoriums }) ∧
      (∀ y, ev.kind = some .auditorium_backstage → ev.auditoriumId = some y →
        classify cid ev roomId c =
          { c with auditoriumBackstages := alInsert y roomId c.auditoriumBackstages }) ∧
      (∀ y, ev.kind = some .talk → ev.talkId = some y →
        classify cid ev roomId c = { c with talks := alInsert y roomId c.talks }) ∧
      (∀ y, ev.kind = some .special_interest → ev.interestId = some y →
        classify cid ev roomId c = { c with interestRooms := alInsert y roomId c.interestRooms }) ∧
      (ev.kind = some .conference → classify cid ev roomId c = { c with dbRoom := some roomId }) ∧
      (ev.kind = none → classify cid ev roomId c = c)) ∧
    (env.createEvent roomId = some ev →
      processBatch cid env [roomId] c = (classify cid ev roomId c, false)) := by
  refine ⟨fun h => by simp [classify, h], fun h => ?_, fun h => by simp [processBatch, h]⟩
  refine ⟨?_, ?_, ?_, ?_, ?_, ?_⟩
  · intro y hk hy; simp [classify, h, hk, hy]
  · intro y hk hy; simp [classify, h, hk, hy]
  · intro y hk hy; simp [classify, h, hk, hy]
  · intro y hk hy; simp [classify, h, hk, hy]
  · intro hk; simp [classify, h, hk]
  · intro hk; simp [classify, h, hk]

/-- Fixture for the C7 witness: a matching auditorium creation record. -/
def c7Ev : CreateEvent :=
  { sender := "@bot:example.org", conferenceId := some "X", kind := some .auditorium,
    auditoriumId := some "A1", talkId := none, interestId := none }

/-- Fixture for the C7 witness: a mismatching creation record. -/
def c7EvOther : CreateEvent :=
  { sender := "@bot:example.org", conferenceId := some "Y", kind := some .talk,
    auditoriumId := none, talkId := some "T1", interestId := none }

def c7Env : BuildEnv :=
  { joinedRooms := some ["!r1:example.org"]
    createEvent := fun r => if r = "!r1:example.org" then some c7Ev else none
    existingInterestRooms := []
    resolveRoom := fun _ => none
    rootRoomState := fun _ => none
    getSpace := fun _ => none }

/-- C7 witness: the classifier theorem applied at concrete records — a
matching auditorium record lands in the auditorium bucket under its logical
ID, a record for another conference changes nothing, and the one-room batch
agrees. -/
theorem c7_classifier_witness :
    classify "X" c7Ev "!r1:example.org" emptyCatalog =
      { emptyCatalog with auditoriums := [("A1", "!r1:example.org")] } ∧
    classify "X" c7EvOther "!r1:example.org" emptyCatalog = emptyCatalog ∧
    processBatch "X" c7Env ["!r1:example.org"] emptyCatalog =
      (classify "X" c7Ev "!r1:example.org" emptyCatalog, false) := by
  refine ⟨?_, ?_, ?_⟩
  · exact ((c7_classifier "X" c7Ev "!r1:example.org" emptyCatalog c7Env).2.1 rfl).1
      "A1" rfl rfl
  · exact (c7_classifier "X" c7EvOther "!r1:example.org" emptyCatalog c7Env).1 (by decide)
  · exact (c7_classifier "X" c7Ev "!r1:example.org" emptyCatalog c7Env).2.2 (by decide)

/-! ## Claim C1: invite-redemption gating -/

/-- C1: for every incoming membership-change event, the handler reaches
`Applied` exactly when the specification's redemption conditions hold (token
present; referenced third-party-invite record exists with a person-ID
payload; creation event sent by the agent; matching invite record sent by the
agent; non-empty backend lookup), and in every other case it terminates in
`Rejected` with the catalog unchanged. -/
theorem c1_gating (env : HandlerEnv) (cat : Catalog) (roomId : RoomId) (ev : MemberEvent)
    (h : ev.type = "m.room.member") :
    ((handleRoomEvent env cat roomId ev).1.isApplied = specRedemptionOk env roomId ev) ∧
    (specRedemptionOk env roomId ev = false →
      handleRoomEvent env cat roomId ev = (.Rejected, cat)) := by
  unfold handleRoomEvent specRedemptionOk
  rw [if_pos h]
  cases hc : ev.content with
  | none => simp [hc, Outcome.isApplied]
  | some content =>
    cases ht : content.thirdPartyInvite with
    | none => simp [hc, ht, Outcome.isApplied]
    | some tpi =>
      cases hs : tpi.signedToken with
      | none => simp [hc, ht, hs, Outcome.isApplied]
      | some token =>
        cases hg : env.getTpiStateEvent roomId token with
        | none => simp [hc, ht, hs, hg, Outcome.isApplied]
        | some invite =>
          cases hp : invite.personId with
          | none => simp [hc, ht, hs, hg, hp, Outcome.isApplied]
          | some pid =>
            cases hr : env.getRoomState roomId with
            | none => simp [hc, ht, hs, hg, hp, hr, Outcome.isApplied]
            | some state =>
              by_cases h1 : ((state.find? (fun e => e.type == "m.room.create")).map (·.sender)
                  == some env.botUserId) = true
              · by_cases h2 : ((state.find? (fun e =>
                      e.type == "m.room.third_party_invite" && e.state_key == token)).map
                    (·.sender) == some env.botUserId) = true
                · cases hf : env.findPeopleWithId pid with
                  | nil => simp [hc, ht, hs, hg, hp, hr, h1, h2, hf, Outcome.isApplied]
                  | cons p ps => simp [hc, ht, hs, hg, hp, hr, h1, h2, hf, Outcome.isApplied]
                · simp [hc, ht, hs, hg, hp, hr, h1, h2, Outcome.isApplied]
              · simp [hc, ht, hs, hg, hp, hr, h1, Outcome.isApplied]

/-- Fixture for the C1 witness: an environment in which every trust-chain
check passes for token "tok1" and person ID "p1". -/
def c1Env : HandlerEnv :=
  { botUserId := "@bot:example.org"
    getTpiStateEvent := fun _ tok =>
      if tok = "tok1" then some { personId := some "p1" } else none
    getRoomState := fun _ => some
      [{ type := "m.room.create", state_key := "", sender := "@bot:example.org" },
       { type := "m.room.third_party_invite", state_key := "tok1",
         sender := "@bot:example.org" }]
    findPeopleWithId := fun pid =>
      if pid = "p1" then [{ person_id := "p1", matrix_id := none }] else [] }

def c1Ev : MemberEvent :=
  { type := "m.room.member", stateKey := "@alice:example.org",
    content := some { thirdPartyInvite := some { signedToken := some "tok1" } } }

/-- C1 witness: the gating theorem applied at a concrete event and
environment. -/
theorem c1_gating_witness :
    ((handleRoomEvent c1Env emptyCatalog "!r:example.org" c1Ev).1.isApplied
        = specRedemptionOk c1Env "!r:example.org" c1Ev) ∧
    (specRedemptionOk c1Env "!r:example.org" c1Ev = false →
      handleRoomEvent c1Env emptyCatalog "!r:example.org" c1Ev = (.Rejected, emptyCatalog)) :=
  c1_gating c1Env emptyCatalog "!r:example.org" c1Ev rfl

/-- Inversion of the handler's `Applied` branch: an `Applied` outcome was
produced by the single success path, so the permission update target is the
reverse entity lookup on the pre-update catalog and the new catalog is the old
one with the stamped people merged into the person cache. -/
theorem handle_applied_inv (env : HandlerEnv) (cat : Catalog) (roomId : RoomId)
    (ev : MemberEvent) (ps : List DbPerson) (pu : Option EntityRef) (cat' : Catalog)
    (h : handleRoomEvent env cat roomId ev = (.Applied ps pu, cat')) :
    pu = resolveEntityForRoom cat roomId ∧
    cat' = { cat with people := stampPeople ev.stateKey ps cat.people } := by
  unfold handleRoomEvent at h
  repeat' split at h
  all_goals
    first
      | (simp_all; done)
      | (simp only [Prod.mk.injEq, Outcome.Applied.injEq] at h
         rcases h with ⟨⟨hps, hpu⟩, hcat⟩
         subst hps
         exact ⟨hpu.symm, hcat.symm⟩)

/-- Unfolding of one stamping step: the head person is stored under its person
ID with the event's state key as correlated identity, then the rest follow. -/
theorem stampPeople_cons (sk : UserId) (p : DbPerson) (rest : List DbPerson)
    (cache : List (String × StoredPerson)) :
    stampPeople sk (p :: rest) cache =
      stampPeople sk rest
        (alInsert p.person_id { pentaId := p.person_id, userId := some sk } cache) := rfl

theorem stampPeople_lookup_not_mem (sk : UserId) (ps : List DbPerson) :
    ∀ cache k, (∀ p ∈ ps, p.person_id ≠ k) →
      alLookup k (stampPeople sk ps cache) = alLookup k cache := by
  induction ps with
  | nil => intro cache k _; rfl
  | cons p rest ih =>
    intro cache k hk
    rw [stampPeople_cons]
    rw [ih _ k (fun q hq => hk q (List.mem_cons_of_mem p hq))]
    exact alLookup_insert_ne _ _ _ _ (hk p (List.mem_cons_self p rest))

theorem stampPeople_lookup_mem (sk : UserId) (ps : List DbPerson) :
    ∀ cache k, k ∈ ps.map (·.person_id) →
      alLookup k (stampPeople sk ps cache) = some { pentaId := k, userId := some sk } := by
  induction ps with
  | nil => intro cache k hk; simp at hk
  | cons p rest ih =>
    intro cache k hk
    rw [stampPeople_cons]
    by_cases hmem : k ∈ rest.map (·.person_id)
    · exact ih _ k hmem
    · have hpk : p.person_id = k := by
        rcases List.mem_map.mp hk with ⟨q, hq, hqk⟩
        rcases List.mem_cons.mp hq with hq1 | hq2
        · rw [hq1] at hqk; exact hqk
        · exact absurd (by rw [← hqk]; exact List.mem_map_of_mem (·.person_id) hq2) hmem
      have hrest : ∀ q ∈ rest, q.person_id ≠ k :=
        fun q hq hc => hmem (hc ▸ List.mem_map_of_mem (·.person_id) hq)
      rw [stampPeople_lookup_not_mem sk rest _ k hrest, hpk, alLookup_insert_self]

/-! ## Claim C2: `matrix_id` monotonicity -/

/-- Fixture for C2: a catalog whose person cache already correlates person
"p1" with the platform identity of alice. -/
def c2Cat : Catalog :=
  { emptyCatalog with
    people := [("p1", { pentaId := "p1", userId := some "@alice:example.org" })] }

/-- Fixture for C2: a passing trust chain for token "tok2" and person "p1". -/
def c2Env : HandlerEnv :=
  { botUserId := "@bot:example.org"
    getTpiStateEvent := fun _ tok =>
      if tok = "tok2" then some { personId := some "p1" } else none
    getRoomState := fun _ => some
      [{ type := "m.room.create", state_key := "", sender := "@bot:example.org" },
       { type := "m.room.third_party_invite", state_key := "tok2",
         sender := "@bot:example.org" }]
    findPeopleWithId := fun pid =>
      if pid = "p1" then [{ person_id := "p1", matrix_id := some "@alice:example.org" }]
      else [] }

/-- Fixture for C2: a redemption of the same person ID by a different
platform identity (bob). -/
def c2Ev : MemberEvent :=
  { type := "m.room.member", stateKey := "@bob:example.org",
    content := some { thirdPartyInvite := some { signedToken := some "tok2" } } }

/-- C2 counterexample: person "p1" already carries `matrix_id` alice; a
subsequent `Applied` redemption for the same person ID with the different
platform identity bob OVERWRITES the stored identity with bob. This refutes
the claim that an existing `matrix_id` is never overwritten. -/
theorem c2_counterexample :
    alLookup "p1" c2Cat.people
      = some { pentaId := "p1", userId := some "@alice:example.org" } ∧
    (handleRoomEvent c2Env c2Cat "!r:example.org" c2Ev).1.isApplied = true ∧
    alLookup "p1" (handleRoomEvent c2Env c2Cat "!r:example.org" c2Ev).2.people
      = some { pentaId := "p1", userId := some "@bob:example.org" } := by
  decide

/-- C2 (amended): correlation is last-write-wins, not monotonic — every
`Applied` redemption unconditionally stamps the redeeming event's platform
identity onto each matched person record, overwriting any previously
correlated identity for the same person ID. -/
theorem c2_last_write_wins (env : HandlerEnv) (cat : Catalog) (roomId : RoomId)
    (ev : MemberEvent) (ps : List DbPerson) (pu : Option EntityRef) (cat' : Catalog)
    (h : handleRoomEvent env cat roomId ev = (.Applied ps pu, cat')) :
    ∀ p ∈ ps, alLookup p.person_id cat'.people
      = some { pentaId := p.person_id, userId := some ev.stateKey } := by
  obtain ⟨-, hcat⟩ := handle_applied_inv env cat roomId ev ps pu cat' h
  intro p hp
  rw [hcat]
  exact stampPeople_lookup_mem ev.stateKey ps cat.people p.person_id
    (List.mem_map_of_mem (·.person_id) hp)

def c2CatAfter : Catalog := (handleRoomEvent c2Env c2Cat "!r:example.org" c2Ev).2

/-- C2 witness: the amended theorem applied at the concrete fixture — after
bob's redemption, person "p1" is stored with bob's identity. -/
theorem c2_last_write_wins_witness :
    alLookup "p1" c2CatAfter.people
      = some { pentaId := "p1", userId := some "@bob:example.org" } :=
  c2_last_write_wins c2Env c2Cat "!r:example.org" c2Ev
    [{ person_id := "p1", matrix_id := some "@alice:example.org" }] none c2CatAfter
    (by decide) { person_id := "p1", matrix_id := some "@alice:example.org" } (by decide)

/-! ## Claim C8: entity reverse-lookup order -/

/-- C8: after a successful correlation, the permission-update entity is the
reverse lookup on the catalog, which tries auditoriums first, then
auditorium backstages, then talks, first match winning; a room matching none
of the three gets no permission update. -/
theorem c8_lookup_order (env : HandlerEnv) (cat : Catalog) (roomId : RoomId)
    (ev : MemberEvent) (ps : List DbPerson) (pu : Option EntityRef) (cat' : Catalog)
    (h : handleRoomEvent env cat roomId ev = (.Applied ps pu, cat')) :
    pu = resolveEntityForRoom cat roomId ∧
    (∀ kv, cat.auditoriums.find? (fun e => e.2 == roomId) = some kv →
      pu = some (.auditorium kv.1)) ∧
    (∀ kv, cat.auditoriums.find? (fun e => e.2 == roomId) = none →
      cat.auditoriumBackstages.find? (fun e => e.2 == roomId) = some kv →
      pu = some (.auditoriumBackstage kv.1)) ∧
    (∀ kv, cat.auditoriums.find? (fun e => e.2 == roomId) = none →
      cat.auditoriumBackstages.find? (fun e => e.2 == roomId) = none →
      cat.talks.find? (fun e => e.2 == roomId) = some kv →
      pu = some (.talk kv.1)) ∧
    (cat.auditoriums.find? (fun e => e.2 == roomId) = none →
      cat.auditoriumBackstages.find? (fun e => e.2 == roomId) = none →
      cat.talks.find? (fun e => e.2 == roomId) = none →
      pu = none) := by
  obtain ⟨hpu, -⟩ := handle_applied_inv env cat roomId ev ps pu cat' h
  subst hpu
  refine ⟨rfl, ?_, ?_, ?_, ?_⟩
  · intro kv h1; simp [resolveEntityForRoom, h1]
  · intro kv h1 h2; simp [resolveEntityForRoom, h1, h2]
  · intro kv h1 h2 h3; simp [resolveEntityForRoom, h1, h2, h3]
  · intro h1 h2 h3; simp [resolveEntityForRoom, h1, h2, h3]

/-- Fixture for C8: a catalog in which the same room is both an auditorium
and a talk — the lookup must prefer the auditorium. -/
def c8Cat : Catalog :=
  { emptyCatalog with
    auditoriums := [("A1", "!aud:example.org")]
    talks := [("T1", "!aud:example.org")] }

def c8Env : HandlerEnv :=
  { botUserId := "@bot:example.org"
    getTpiStateEvent := fun _ tok =>
      if tok = "tok8" then some { personId := some "p8" } else none
    getRoomState := fun _ => some
      [{ type := "m.room.create", state_key := "", sender := "@bot:example.org" },
       { type := "m.room.third_party_invite", state_key := "tok8",
         sender := "@bot:example.org" }]
    findPeopleWithId := fun pid =>
      if pid = "p8" then [{ person_id := "p8", matrix_id := none }] else [] }

def c8Ev : MemberEvent :=
  { type := "m.room.member", stateKey := "@carol:example.org",
    content := some { thirdPartyInvite := some { signedToken := some "tok8" } } }

def c8CatAfter : Catalog := (handleRoomEvent c8Env c8Cat "!aud:example.org" c8Ev).2

/-- C8 witness: the lookup-order theorem applied at a concrete redemption in
a room that is both an auditorium and a talk — the auditorium wins. -/
theorem c8_lookup_order_witness :
    some (EntityRef.auditorium "A1") = resolveEntityForRoom c8Cat "!aud:example.org" ∧
    some (EntityRef.auditorium "A1") = some (EntityRef.auditorium "A1") :=
  ⟨(c8_lookup_order c8Env c8Cat "!aud:example.org" c8Ev
      [{ person_id := "p8", matrix_id := none }] (some (.auditorium "A1")) c8CatAfter
      (by decide)).1,
   (c8_lookup_order c8Env c8Cat "!aud:example.org" c8Ev
      [{ person_id := "p8", matrix_id := none }] (some (.auditorium "A1")) c8CatAfter
      (by decide)).2.1 ("A1", "!aud:example.org") (by decide)⟩

/-! ## Claim C4: partial-failure tolerance of rebuild -/

/-- The catalog a batch produces ignores failed reads entirely: it equals the
fold of the classification step over the readable rooms, regardless of which
sibling reads failed. -/
theorem processBatch_fst (cid : String) (env : BuildEnv) (batch : List RoomId) :
    ∀ c, (processBatch cid env batch c).1 =
      batch.foldl
        (fun c r => match env.createEvent r with | none => c | some ev => classify cid ev r c)
        c := by
  induction batch with
  | nil => intro c; rfl
  | cons r rest ih =>
    intro c
    cases hr : env.createEvent r with
    | none => simp [processBatch, hr, ih]
    | some ev => simp [processBatch, hr, ih]

/-- A batch reports failure exactly when some room's creation-record read in
it failed. -/
theorem processBatch_snd (cid : String) (env : BuildEnv) (batch : List RoomId) :
    ∀ c, (processBatch cid env batch c).2 = batch.any (fun r => (env.createEvent r).isNone) := by
  induction batch with
  | nil => intro c; rfl
  | cons r rest ih =>
    intro c
    cases hr : env.createEvent r with
    | none => simp [processBatch, hr]
    | some ev => simp [processBatch, hr, ih]

/-- The batched loop aborts exactly when some room's creation-record read
fails (given enough fuel, which `processBatches` always supplies). -/
theorem processBatchesAux_snd (cid : String) (env : BuildEnv) :
    ∀ fuel rooms c, rooms.length ≤ fuel →
      (processBatchesAux cid env fuel rooms c).2
        = rooms.any (fun r => (env.createEvent r).isNone) := by
  intro fuel
  induction fuel with
  | zero =>
    intro rooms c h
    have hnil : rooms = [] := List.eq_nil_of_length_eq_zero (Nat.le_zero.mp h)
    subst hnil; rfl
  | succ n ih =>
    intro rooms c h
    cases rooms with
    | nil => rfl
    | cons r rs =>
      have hfuel : ((r :: rs).drop 20).length ≤ n := by
        simp only [List.length_drop, List.length_cons] at h ⊢
        omega
      by_cases hb : (processBatch cid env ((r :: rs).take 20) c).2 = true
      · have hany : (r :: rs).any (fun x => (env.createEvent x).isNone) = true := by
          rw [processBatch_snd] at hb
          rcases List.any_eq_true.mp hb with ⟨x, hx, hfx⟩
          exact List.any_eq_true.mpr ⟨x, List.mem_of_mem_take hx, hfx⟩
        simp only [processBatchesAux]
        simp only [hb, eq_self_iff_true, if_true]
        exact hany.symm
      · have hbf : (processBatch cid env ((r :: rs).take 20) c).2 = false := by
          simpa using hb
        have hdec : (r :: rs).any (fun x => (env.createEvent x).isNone)
            = (((r :: rs).take 20).any (fun x => (env.createEvent x).isNone)
              || ((r :: rs).drop 20).any (fun x => (env.createEvent x).isNone)) := by
          rw [← List.any_append, List.take_append_drop]
        have htakef : ((r :: rs).take 20).any (fun x => (env.createEvent x).isNone) = false := by
          rw [← processBatch_snd cid env _ c]; exact hbf
        simp only [processBatchesAux]
        simp only [hbf, Bool.false_eq_true, if_false]
        rw [ih ((r :: rs).drop 20) _ hfuel, hdec, htakef]
        simp

/-- Fixture for C4: 21 rooms — two batches. Room "r0" (first batch) has an
unreadable creation record; room "r1" (same batch) is a matching auditorium
"A1"; room "r20" (second batch) is a matching auditorium "A20"; the rest
belong to another conference. -/
def c4Rooms : List RoomId := (List.range 21).map (fun i => "r" ++ toString i)

def c4Env : BuildEnv :=
  { joinedRooms := some c4Rooms
    createEvent := fun r =>
      if r = "r0" then none
      else if r = "r1" then
        some { sender := "@bot:example.org", conferenceId := some "X",
               kind := some .auditorium, auditoriumId := some "A1",
               talkId := none, interestId := none }
      else if r = "r20" then
        some { sender := "@bot:example.org", conferenceId := some "X",
               kind := some .auditorium, auditoriumId := some "A20",
               talkId := none, interestId := none }
      else
        some { sender := "@other:example.org", conferenceId := some "Y",
               kind := some .talk, auditoriumId := none,
               talkId := some "T", interestId := none }
    existingInterestRooms := []
    resolveRoom := fun _ => none
    rootRoomState := fun _ => none
    getSpace := fun _ => none }

/-- C4 counterexample: room "r0"'s creation-record read fails. The claim says
all other rooms in the same and later batches are still classified and the
rebuild is not aborted — but the rebuild IS aborted: it completes with
failure, and room "r20" in the second batch is never classified (while "r1"
in the failing batch itself was). -/
theorem c4_counterexample :
    (construct "X" c4Env emptyCatalog).2 = false ∧
    alLookup "A20" (construct "X" c4Env emptyCatalog).1.auditoriums = none ∧
    alLookup "A1" (construct "X" c4Env emptyCatalog).1.auditoriums = some "r1" := by
  decide

/-- C4 (amended): a room whose conference-ID tag does not match is silently
skipped and affects nothing. A failed creation-record read, however, is not
skipped: rooms in the same batch are still classified (the batch catalog is
the fold over the readable rooms only), but the rebuild aborts after that
batch and reports failure; it completes only when every joined room's
creation record is readable. -/
theorem c4_failure_semantics (cid : String) (env : BuildEnv) (prior c : Catalog)
    (rooms batch : List RoomId) (hj : env.joinedRooms = some rooms) :
    ((∃ r ∈ rooms, env.createEvent r = none) → (construct cid env prior).2 = false) ∧
    ((∀ r ∈ rooms, (env.createEvent r).isSome) →
      (processBatches cid env rooms emptyCatalog).2 = false) ∧
    ((processBatch cid env batch c).1 =
      batch.foldl
        (fun c r => match env.createEvent r with | none => c | some ev => classify cid ev r c)
        c) := by
  refine ⟨fun hex => ?_, fun hall => ?_, processBatch_fst cid env batch c⟩
  · have hfail : (processBatches cid env rooms emptyCatalog).2 = true := by
      rw [processBatches, processBatchesAux_snd cid env rooms.length rooms _ (Nat.le_refl _)]
      rcases hex with ⟨r, hr, hrn⟩
      exact List.any_eq_true.mpr ⟨r, hr, by simp [hrn]⟩
    simp [construct, hj, hfail]
  · rw [processBatches, processBatchesAux_snd cid env rooms.length rooms _ (Nat.le_refl _)]
    simp only [List.any_eq_false]
    intro r hr
    simpa [Option.isNone_iff_eq_none] using (Option.isSome_iff_ne_none.mp (hall r hr))

/-- C4 witness: the amended theorem applied at the concrete 21-room fixture —
the failing read aborts the rebuild, and the failing batch's catalog is the
fold over its readable rooms. -/
theorem c4_failure_semantics_witness :
    (construct "X" c4Env emptyCatalog).2 = false ∧
    (processBatch "X" c4Env (c4Rooms.take 20) emptyCatalog).1 =
      (c4Rooms.take 20).foldl
        (fun c r =>
          match c4Env.createEvent r with | none => c | some ev => classify "X" ev r c)
        emptyCatalog :=
  ⟨(c4_failure_semantics "X" c4Env emptyCatalog emptyCatalog c4Rooms (c4Rooms.take 20)
      rfl).1 (by decide),
   (c4_failure_semantics "X" c4Env emptyCatalog emptyCatalog c4Rooms (c4Rooms.take 20)
      rfl).2.2⟩

/-! ## Claims C5 and C10: permission reconciliation -/

/-- An entry whose stored tier is truthy (present and nonzero) is never
modified by the target-grant loop. -/
theorem grant_preserves_truthy (ms : List String) :
    ∀ us u v, alLookup u us = some v → v ≠ 0 →
      alLookup u (ms.foldl grantStep us) = some v := by
  induction ms with
  | nil => intro us u v h _; exact h
  | cons m rest ih =>
    intro us u v h hv
    rw [List.foldl_cons]
    by_cases hg : truthyLevel (alLookup m us) = true
    · rw [grantStep, if_pos hg]
      exact ih us u v h hv
    · rw [grantStep, if_neg hg]
      by_cases hm : m = u
      · subst hm
        rw [h] at hg
        exact absurd (by simp [truthyLevel, hv]) hg
      · exact ih _ u v (by rw [alLookup_insert_ne _ _ _ _ hm]; exact h) hv

/-- A target whose stored tier is falsy (absent or zero) ends up with tier 50
after the target-grant loop. -/
theorem grant_sets_from_falsy (ms : List String) :
    ∀ us u, u ∈ ms → truthyLevel (alLookup u us) = false →
      alLookup u (ms.foldl grantStep us) = some 50 := by
  induction ms with
  | nil => intro us u h _; simp at h
  | cons m rest ih =>
    intro us u hmem hf
    rw [List.foldl_cons]
    by_cases hm : m = u
    · subst hm
      rw [grantStep, if_neg (by simp [hf])]
      exact grant_preserves_truthy rest _ m 50 (alLookup_insert_self m 50 us) (by norm_num)
    · have hmem' : u ∈ rest := by
        rcases List.mem_cons.mp hmem with h1 | h2
        · exact absurd h1.symm hm
        · exact h2
      by_cases hg : truthyLevel (alLookup m us) = true
      · rw [grantStep, if_pos hg]
        exact ih us u hmem' hf
      · rw [grantStep, if_neg hg]
        refine ih _ u hmem' ?_
        rw [alLookup_insert_ne _ _ _ _ hm]
        exact hf

/-- The target identities of `ensurePermissionsFor` are exactly the `some`
platform identities among the resolved targets. -/
theorem mem_mxids_iff (people : List ResolvedPersonIdentifier) (u : UserId) :
    u ∈ (people.filter (fun t => t.mxid.isSome)).filterMap (·.mxid) ↔
      some u ∈ people.map (·.mxid) := by
  simp only [List.mem_filterMap, List.mem_filter, List.mem_map]
  constructor
  · rintro ⟨a, ⟨ha, -⟩, hm⟩
    exact ⟨a, ha, hm⟩
  · rintro ⟨a, ha, hm⟩
    exact ⟨a, ⟨ha, by simp [hm]⟩, hm⟩

/-- After pinning the agent and the moderator, every other key's entry is the
original one. -/
theorem alLookup_pins (bot mod u : UserId) (us : List (String × Int))
    (h1 : u ≠ bot) (h2 : u ≠ mod) :
    alLookup u (alInsert mod 100 (alInsert bot 100 us)) = alLookup u us := by
  rw [alLookup_insert_ne _ _ _ _ (Ne.symm h2), alLookup_insert_ne _ _ _ _ (Ne.symm h1)]

/-- Fixture for C5: carol is already listed with tier 0. -/
def c5Pls : PowerLevels := { users := [("@carol:example.org", 0)] }

def c5People : List ResolvedPersonIdentifier :=
  [{ mxid := some "@carol:example.org",
     person := { person_id := "pc", matrix_id := some "@carol:example.org" } }]

/-- C5 counterexample: carol is already present in the privilege map (with
tier 0); the claim says every identity already present other than the two
pinned ones keeps its existing tier — but the reconciler overwrites carol's
entry with 50, because presence is tested by truthiness and 0 is falsy. -/
theorem c5_counterexample :
    alLookup "@carol:example.org" c5Pls.users = some 0 ∧
    "@carol:example.org" ≠ "@bot:example.org" ∧
    "@carol:example.org" ≠ "@mod:example.org" ∧
    alLookup "@carol:example.org"
        (ensurePermissionsFor "@bot:example.org" "@mod:example.org" c5People c5Pls).users
      = some 50 := by
  decide

/-- C5 (amended): `ensurePermissionsFor` pins the agent's identity and the
configured moderator identity to 100; every other identity already present
with a NONZERO tier keeps its tier unchanged (no downgrade, no re-grant); and
every target platform identity not present in the map at all is granted 50.
(A present-but-zero entry is overwritten to 50 — presence is tested by
truthiness; that behaviour is stated separately.) -/
theorem c5_merge_semantics (bot mod : UserId) (people : List ResolvedPersonIdentifier)
    (pls : PowerLevels) :
    alLookup bot (ensurePermissionsFor bot mod people pls).users = some 100 ∧
    alLookup mod (ensurePermissionsFor bot mod people pls).users = some 100 ∧
    (∀ u v, u ≠ bot → u ≠ mod → alLookup u pls.users = some v → v ≠ 0 →
      alLookup u (ensurePermissionsFor bot mod people pls).users = some v) ∧
    (∀ u, u ≠ bot → u ≠ mod → some u ∈ people.map (·.mxid) →
      alLookup u pls.users = none →
      alLookup u (ensurePermissionsFor bot mod people pls).users = some 50) := by
  refine ⟨?_, ?_, ?_, ?_⟩
  · by_cases hbm : bot = mod
    · subst hbm
      exact grant_preserves_truthy _ _ bot 100
        (by rw [alLookup_insert_self]) (by norm_num)
    · refine grant_preserves_truthy _ _ bot 100 ?_ (by norm_num)
      rw [alLookup_insert_ne _ _ _ _ (Ne.symm hbm), alLookup_insert_self]
  · exact grant_preserves_truthy _ _ mod 100 (by rw [alLookup_insert_self]) (by norm_num)
  · intro u v h1 h2 hu hv
    refine grant_preserves_truthy _ _ u v ?_ hv
    rw [alLookup_pins bot mod u pls.users h1 h2]
    exact hu
  · intro u h1 h2 hmem hu
    refine grant_sets_from_falsy _ _ u ((mem_mxids_iff people u).mpr hmem) ?_
    rw [alLookup_pins bot mod u pls.users h1 h2, hu]
    rfl

/-- Fixture for the C5 witness: eve holds tier 75, dave is a new target. -/
def c5wPls : PowerLevels := { users := [("@eve:example.org", 75)] }

def c5wPeople : List ResolvedPersonIdentifier :=
  [{ mxid := some "@dave:example.org",
     person := { person_id := "pd", matrix_id := some "@dave:example.org" } }]

/-- C5 witness: the merge theorem applied at a concrete map — the two pinned
identities get 100, eve's tier 75 is untouched, and the absent target dave is
granted 50. -/
theorem c5_merge_semantics_witness :
    alLookup "@bot:example.org"
        (ensurePermissionsFor "@bot:example.org" "@mod:example.org" c5wPeople c5wPls).users
      = some 100 ∧
    alLookup "@mod:example.org"
        (ensurePermissionsFor "@bot:example.org" "@mod:example.org" c5wPeople c5wPls).users
      = some 100 ∧
    alLookup "@eve:example.org"
        (ensurePermissionsFor "@bot:example.org" "@mod:example.org" c5wPeople c5wPls).users
      = some 75 ∧
    alLookup "@dave:example.org"
        (ensurePermissionsFor "@bot:example.org" "@mod:example.org" c5wPeople c5wPls).users
      = some 50 :=
  ⟨(c5_merge_semantics "@bot:example.org" "@mod:example.org" c5wPeople c5wPls).1,
   (c5_merge_semantics "@bot:example.org" "@mod:example.org" c5wPeople c5wPls).2.1,
   (c5_merge_semantics "@bot:example.org" "@mod:example.org" c5wPeople c5wPls).2.2.1
     "@eve:example.org" 75 (by decide) (by decide) (by decide) (by decide),
   (c5_merge_semantics "@bot:example.org" "@mod:example.org" c5wPeople c5wPls).2.2.2
     "@dave:example.org" (by decide) (by decide) (by decide) (by decide)⟩

/-- C10: a target platform identity already present in the privilege map with
tier 0 is treated as absent — its entry is overwritten with the moderator
tier 50 rather than left untouched, because presence is tested by truthiness
of the stored tier. -/
theorem c10_zero_tier_regrant (bot mod : UserId) (people : List ResolvedPersonIdentifier)
    (pls : PowerLevels) (u : UserId) (h1 : u ≠ bot) (h2 : u ≠ mod)
    (hmem : some u ∈ people.map (·.mxid)) (h0 : alLookup u pls.users = some 0) :
    alLookup u (ensurePermissionsFor bot mod people pls).users = some 50 := by
  refine grant_sets_from_falsy _ _ u ((mem_mxids_iff people u).mpr hmem) ?_
  rw [alLookup_pins bot mod u pls.users h1 h2, h0]
  rfl

/-- C10 witness: the zero-tier theorem applied at the concrete C5 fixture
(carol listed with tier 0 becomes 50). -/
theorem c10_zero_tier_regrant_witness :
    alLookup "@carol:example.org"
        (ensurePermissionsFor "@bot:example.org" "@mod:example.org" c5People c5Pls).users
      = some 50 :=
  c10_zero_tier_regrant "@bot:example.org" "@mod:example.org" c5People c5Pls
    "@carol:example.org" (by decide) (by decide) (by decide) (by decide)

/-! ## Claim C6: membership reconciler -/

/-- The invite loop is a partition of the guard-passing targets by invite
success: the attempted targets are exactly the guard-passing ones in order,
independently of which attempts fail. -/
theorem ensureInvitedLoop_eq (joined : List UserId) (tpis : List PersonId)
    (inviteOk : ResolvedPersonIdentifier → Bool) :
    ∀ ps, ensureInvitedLoop joined tpis inviteOk ps =
      ((ps.filter (skipGuard joined tpis)).filter (fun t => inviteOk t),
       (ps.filter (skipGuard joined tpis)).filter (fun t => !(inviteOk t))) := by
  intro ps
  induction ps with
  | nil => rfl
  | cons t rest ih =>
    by_cases hj : (match t.mxid with | some m => joined.contains m | none => false) = true
    · have hg : skipGuard joined tpis t = false := by
        unfold skipGuard
        rw [hj]
        simp
      simp only [ensureInvitedLoop, hj, if_true, eq_self_iff_true, ih]
      simp [List.filter_cons, hg]
    · by_cases ht : tpis.contains t.person.person_id = true
      · have hg : skipGuard joined tpis t = false := by
          unfold skipGuard
          rw [ht]
          simp
        simp only [ensureInvitedLoop, hj, ht, if_true, if_false, eq_self_iff_true, ih]
        simp [List.filter_cons, hg]
      · have hg : skipGuard joined tpis t = true := by
          rw [Bool.not_eq_true] at hj ht
          unfold skipGuard
          rw [hj, ht]
          simp
        by_cases ho : inviteOk t = true
        · simp only [ensureInvitedLoop, hj, ht, if_false, ih]
          simp [List.filter_cons, hg, ho]
        · simp only [ensureInvitedLoop, hj, ht, if_false, ih]
          simp [List.filter_cons, hg, ho]

theorem effectiveJoined_append (a b : List InvStateEvent) :
    effectiveJoinedUserIds (a ++ b)
      = effectiveJoinedUserIds a ++ effectiveJoinedUserIds b := by
  simp [effectiveJoinedUserIds, List.filter_append, List.filterMap_append]

/-- C6: for every call and every target, an invite is attempted exactly when
the target passes the two skip checks — its platform identity is not
effectively joined and no pending third-party invite carries its person ID;
the attempted set does not depend on which invites fail (a failing target is
logged into the failure list and the rest are still processed); and the
operation only appends invite events — it never removes a state event and
never removes an effectively joined member. -/
theorem c6_membership_reconciler (st : List InvStateEvent)
    (people : List ResolvedPersonIdentifier)
    (ok1 ok2 : ResolvedPersonIdentifier → Bool) :
    ((ensureInvited st people ok1).1
        = (people.filter (shouldInvite st)).filter (fun t => ok1 t)) ∧
    ((ensureInvited st people ok1).2
        = (people.filter (shouldInvite st)).filter (fun t => !(ok1 t))) ∧
    (∀ t, shouldInvite st t = true ↔
      ((∀ m, t.mxid = some m → ¬ m ∈ effectiveJoinedUserIds st) ∧
        ¬ t.person.person_id ∈ emailInvitePersonIds st)) ∧
    (∀ t, (t ∈ (ensureInvited st people ok1).1 ∨ t ∈ (ensureInvited st people ok1).2) ↔
      (t ∈ (ensureInvited st people ok2).1 ∨ t ∈ (ensureInvited st people ok2).2)) ∧
    (∀ e, e ∈ st → e ∈ applyEnsureInvited st people ok1) ∧
    (∀ u, u ∈ effectiveJoinedUserIds st →
      u ∈ effectiveJoinedUserIds (applyEnsureInvited st people ok1)) := by
  have h1 := ensureInvitedLoop_eq (effectiveJoinedUserIds st) (emailInvitePersonIds st)
    ok1 people
  have h2 := ensureInvitedLoop_eq (effectiveJoinedUserIds st) (emailInvitePersonIds st)
    ok2 people
  have key : ∀ (F : List ResolvedPersonIdentifier) (ok : ResolvedPersonIdentifier → Bool) t,
      (t ∈ F.filter (fun t => ok t) ∨ t ∈ F.filter (fun t => !(ok t))) ↔ t ∈ F := by
    intro F ok t
    by_cases h : ok t = true <;> simp [List.mem_filter, h]
  refine ⟨congrArg Prod.fst h1, congrArg Prod.snd h1, ?_, ?_, ?_, ?_⟩
  · intro t
    cases hm : t.mxid with
    | none => simp [shouldInvite, skipGuard, hm]
    | some m => simp [shouldInvite, skipGuard, hm]
  · intro t
    have e1 : ensureInvited st people ok1
        = ensureInvitedLoop (effectiveJoinedUserIds st) (emailInvitePersonIds st) ok1
            people := rfl
    have e2 : ensureInvited st people ok2
        = ensureInvitedLoop (effectiveJoinedUserIds st) (emailInvitePersonIds st) ok2
            people := rfl
    rw [e1, e2, h1, h2]
    rw [key _ ok1 t, key _ ok2 t]
  · intro e he
    exact List.mem_append_left _ he
  · intro u hu
    rw [applyEnsureInvited, effectiveJoined_append]
    exact List.mem_append_left _ hu

/-- Fixture for the C6 witness: one effectively joined member and one pending
third-party invite for person "p2". -/
def c6St : List InvStateEvent :=
  [{ type := "m.room.member", tpiPersonId := none,
     membership := some { effectiveMembership := "join", membershipFor := "@m1:example.org" } },
   { type := "m.room.third_party_invite", tpiPersonId := some "p2", membership := none }]

/-- Fixture for the C6 witness: a joined target, a pending-invite target and
a fresh target. -/
def c6People : List ResolvedPersonIdentifier :=
  [{ mxid := some "@m1:example.org",
     person := { person_id := "p1", matrix_id := some "@m1:example.org" } },
   { mxid := none, person := { person_id := "p2", matrix_id := none } },
   { mxid := some "@m3:example.org",
     person := { person_id := "p3", matrix_id := some "@m3:example.org" } }]

def c6Ok1 : ResolvedPersonIdentifier → Bool := fun _ => true

def c6Ok2 : ResolvedPersonIdentifier → Bool := fun _ => false

/-- C6 witness: the reconciler theorem applied at the concrete fixture — the
successful invites are exactly the guard-passing targets, the existing member
event survives, and the joined member stays joined. -/
theorem c6_membership_reconciler_witness :
    ((ensureInvited c6St c6People c6Ok1).1
        = (c6People.filter (shouldInvite c6St)).filter (fun t => c6Ok1 t)) ∧
    ({ type := "m.room.member", tpiPersonId := none,
       membership := some { effectiveMembership := "join",
                            membershipFor := "@m1:example.org" } } : InvStateEvent)
      ∈ applyEnsureInvited c6St c6People c6Ok1 ∧
    "@m1:example.org" ∈ effectiveJoinedUserIds (applyEnsureInvited c6St c6People c6Ok1) :=
  ⟨(c6_membership_reconciler c6St c6People c6Ok1 c6Ok2).1,
   (c6_membership_reconciler c6St c6People c6Ok1 c6Ok2).2.2.2.2.1 _ (by decide),
   (c6_membership_reconciler c6St c6People c6Ok1 c6Ok2).2.2.2.2.2 "@m1:example.org"
     (by decide)⟩

end ConfBot
